import Mathlib

/-!
# Shallow embedding of the Meridies bid tool financial core

This file embeds the `EventBid` class of `src/bid_app.py` (the single
source file with program logic) and proves the frozen specification
claims about it.

Modelling conventions:
* Python `float` monetary amounts are modelled as exact rationals `ℚ`;
  every formula in the source is a composition of `+`, `-`, `*`, `/`,
  so the rational model mirrors the source expression for expression.
* Python `datetime.date` / `datetime.time` values are modelled as
  record types `PyDate` / `PyTime` carrying the calendar fields; the
  Streamlit `time_input` widget produces whole-minute times, so the
  model carries hour/minute/second (CPython's `str` renders such times
  as `HH:MM:SS`).
* Python strings used for date serialisation are modelled as lists of
  code points (`List ℕ`): `str(date)` always emits the zero-padded
  `YYYY-MM-DD` form and `str(time)` the `HH:MM:SS` form, and
  `datetime.strptime` succeeds on exactly those forms, returning the
  parsed value; the embedded parser below reproduces that behaviour on
  the strings the serialiser can produce.
* A Python `dict` with string keys and fixed known fields (the output
  of `to_dict`, the argument of `load_data` and of
  `apply_site_profile`) is modelled as a structure whose fields are
  `Option`-typed: `none` means the key is absent (or `null`), matching
  the `data.get(key, default)` access pattern of the source.
* The expense ledger (`self.expenses`, a dict from item name to a
  `{'projected': _, 'actual': _, 'category': _}` dict) is modelled as
  an association list `List (String × Expense)`; the engine only ever
  folds over its values, never looks a key up.
-/

namespace MeridiesBid

/-- The two columns of the expense ledger, i.e. the `mode` argument of
`get_total_fixed_costs` and `generate_final_report` (`'projected'` or
`'actual'` in the source). -/
inductive Mode
  | projected
  | actual
deriving DecidableEq

/-- One value of the `self.expenses` dict in `bid_app.py`: a line item
with a projected amount, an actual amount and a category string. -/
structure Expense where
  projected : ℚ
  actual : ℚ
  category : String
deriving DecidableEq

/-- Embeds `item[mode]` for a ledger line item: selects the column named by
the mode key. -/
def Expense.col (e : Expense) : Mode → ℚ
  | Mode.projected => e.projected
  | Mode.actual => e.actual

/-- A CPython `datetime.date`: year/month/day fields. -/
structure PyDate where
  year : ℕ
  month : ℕ
  day : ℕ
deriving DecidableEq

attribute [ext] PyDate

/-- A CPython `datetime.time` as produced by the app's widgets and by
`strptime("%H:%M:%S")`: hour/minute/second fields (no sub-second
component; `time_input` yields whole minutes). -/
structure PyTime where
  hour : ℕ
  minute : ℕ
  second : ℕ
deriving DecidableEq

attribute [ext] PyTime

/-- The invariant CPython enforces on every constructed `datetime.date`:
`1 ≤ year ≤ 9999`, `1 ≤ month ≤ 12`, `1 ≤ day ≤ 31`. -/
def validPyDate (d : PyDate) : Prop :=
  1 ≤ d.year ∧ d.year ≤ 9999 ∧ 1 ≤ d.month ∧ d.month ≤ 12 ∧ 1 ≤ d.day ∧ d.day ≤ 31

instance (d : PyDate) : Decidable (validPyDate d) := by
  unfold validPyDate; infer_instance

/-- The invariant CPython enforces on every `datetime.time`:
`hour ≤ 23`, `minute ≤ 59`, `second ≤ 59`. -/
def validPyTime (t : PyTime) : Prop :=
  t.hour ≤ 23 ∧ t.minute ≤ 59 ∧ t.second ≤ 59

instance (t : PyTime) : Decidable (validPyTime t) := by
  unfold validPyTime; infer_instance

/-- The `EventBid` record: one field per attribute set in
`EventBid.__init__` of `bid_app.py`, in source order. -/
structure EventBid where
  kingdom_event_name : String
  start_date : Option PyDate
  gate_time : Option PyTime
  is_single_day : Bool
  event_stewards : List String
  feast_stewards : List String
  expenses : List (String × Expense)
  event_type : String
  site_flat_fee : ℚ
  site_variable_cost : ℚ
  camping_allowed : Bool
  fires_allowed : Bool
  alcohol_policy : String
  classrooms_small : ℚ
  classrooms_med : ℚ
  classrooms_large : ℚ
  av_equipment : String
  ada_ramps : Bool
  ada_parking : Bool
  ada_parking_count : ℚ
  ada_bathrooms : Bool
  ada_bathroom_count : ℚ
  kitchen_size : String
  kitchen_sq_ft : ℚ
  kitchen_burners : ℚ
  kitchen_ovens : ℚ
  kitchen_3bay_sinks : ℚ
  kitchen_prep_tables : ℚ
  kitchen_garbage_cans : ℚ
  kitchen_fridge_household : ℚ
  kitchen_freezer_household : ℚ
  kitchen_amenities : List String
  ticket_weekend_member : ℚ
  ticket_daytrip_member : ℚ
  nms_surcharge : ℚ
  feast_ticket_price : ℚ
  food_cost_per_person : ℚ
  feast_capacity : ℚ
  beds_top_qty : ℚ
  beds_top_price : ℚ
  beds_bot_qty : ℚ
  beds_bot_price : ℚ
deriving DecidableEq

attribute [ext] EventBid

/-- The freshly constructed record, mirroring `EventBid.__init__`
(`bid = EventBid()` at the top of `main`). -/
def EventBid.init : EventBid where
  kingdom_event_name := "N/A"
  start_date := none
  gate_time := none
  is_single_day := false
  event_stewards := ["", "", "", ""]
  feast_stewards := ["", "", ""]
  expenses := []
  event_type := "KINGDOM"
  site_flat_fee := 0
  site_variable_cost := 0
  camping_allowed := false
  fires_allowed := false
  alcohol_policy := "Dry (no)"
  classrooms_small := 0
  classrooms_med := 0
  classrooms_large := 0
  av_equipment := ""
  ada_ramps := false
  ada_parking := false
  ada_parking_count := 0
  ada_bathrooms := false
  ada_bathroom_count := 0
  kitchen_size := "None"
  kitchen_sq_ft := 0
  kitchen_burners := 0
  kitchen_ovens := 0
  kitchen_3bay_sinks := 0
  kitchen_prep_tables := 0
  kitchen_garbage_cans := 0
  kitchen_fridge_household := 0
  kitchen_freezer_household := 0
  kitchen_amenities := []
  ticket_weekend_member := 0
  ticket_daytrip_member := 0
  nms_surcharge := 10
  feast_ticket_price := 0
  food_cost_per_person := 0
  feast_capacity := 0
  beds_top_qty := 0
  beds_top_price := 0
  beds_bot_qty := 0
  beds_bot_price := 0

/-- Embeds `EventBid.get_total_fixed_costs(mode)`: site flat fee plus the sum
of the selected column over all ledger entries. -/
def get_total_fixed_costs (b : EventBid) (mode : Mode) : ℚ :=
  b.site_flat_fee + (b.expenses.map (fun item => item.2.col mode)).sum

/-- Embeds `EventBid.calculate_bed_revenue(projected_occupancy_pct)`. -/
def calculate_bed_revenue (b : EventBid) (projected_occupancy_pct : ℚ) : ℚ :=
  b.beds_top_qty * projected_occupancy_pct * b.beds_top_price +
    b.beds_bot_qty * projected_occupancy_pct * b.beds_bot_price

/-- Embeds `EventBid.calculate_gate_break_even()`: `None` when the per-head
margin is non-positive, else the ceiling of projected fixed costs over
the margin.  Note the source always passes `mode='projected'` to
`get_total_fixed_costs` here. -/
def calculate_gate_break_even (b : EventBid) : Option ℤ :=
  let margin := b.ticket_weekend_member - b.site_variable_cost
  let fixed_total := get_total_fixed_costs b Mode.projected
  if margin ≤ 0 then none else some (Int.ceil (fixed_total / margin))

/-- The dict returned by `EventBid.generate_final_report`. -/
structure Report where
  break_even : Option ℤ
  total_net : ℚ
  kingdom_share : ℚ
  group_share : ℚ
  gate_net : ℚ
  feast_net : ℚ
  bed_net : ℚ
  total_revenue : ℚ
  total_expense : ℚ
deriving DecidableEq

/-- Embeds `EventBid.generate_final_report(attend_weekend, attend_daytrip,
feast_count, bed_sell_pct, mode)`, local names as in the source.  The
Python literal `0.5` is the exact rational `1/2`. -/
def generate_final_report (b : EventBid)
    (attend_weekend attend_daytrip feast_count bed_sell_pct : ℚ)
    (mode : Mode) : Report :=
  let fixed_costs := get_total_fixed_costs b mode
  let rev_weekend := b.ticket_weekend_member * attend_weekend
  let rev_daytrip := b.ticket_daytrip_member * attend_daytrip
  let total_gate_revenue := rev_weekend + rev_daytrip
  let total_attendees := attend_weekend + attend_daytrip
  let total_variable := b.site_variable_cost * total_attendees
  let gate_net := total_gate_revenue - fixed_costs - total_variable
  let feast_revenue := b.feast_ticket_price * feast_count
  let feast_expenses := b.food_cost_per_person * feast_count
  let feast_net := feast_revenue - feast_expenses
  let bed_revenue := calculate_bed_revenue b bed_sell_pct
  let bed_net := bed_revenue
  let total_net := gate_net + feast_net + bed_net
  let shares : ℚ × ℚ :=
    if total_net > 0 then
      if b.event_type = "KINGDOM" then (total_net * (1 / 2), total_net * (1 / 2))
      else (0, total_net)
    else (0, 0)
  { break_even := calculate_gate_break_even b
    total_net := total_net
    kingdom_share := shares.1
    group_share := shares.2
    gate_net := gate_net
    feast_net := feast_net
    bed_net := bed_net
    total_revenue := total_gate_revenue + feast_revenue + bed_revenue
    total_expense := fixed_costs + total_variable + feast_expenses }

/-! ## Serialisation: `to_dict` and `load_data` -/

/-- Code point of the decimal digit at weight `k` of `n` (zero padded),
e.g. `digitCode 2026 1000 = 48 + 2`. -/
def digitCode (n k : ℕ) : ℕ := 48 + n / k % 10

/-- CPython `str(date)`: the zero-padded `YYYY-MM-DD` string, as a
list of code points (45 is `'-'`). -/
def strOfDate (d : PyDate) : List ℕ :=
  [digitCode d.year 1000, digitCode d.year 100, digitCode d.year 10, digitCode d.year 1,
   45,
   digitCode d.month 10, digitCode d.month 1,
   45,
   digitCode d.day 10, digitCode d.day 1]

/-- CPython `str(time)` for a whole-second time: the `HH:MM:SS` string
as a list of code points (58 is `':'`). -/
def strOfTime (t : PyTime) : List ℕ :=
  [digitCode t.hour 10, digitCode t.hour 1,
   58,
   digitCode t.minute 10, digitCode t.minute 1,
   58,
   digitCode t.second 10, digitCode t.second 1]

/-- Numeric value of a two-digit code-point pair. -/
def val2 (a b : ℕ) : ℕ := (a - 48) * 10 + (b - 48)

/-- Numeric value of a four-digit code-point run. -/
def val4 (a b c d : ℕ) : ℕ :=
  (a - 48) * 1000 + (b - 48) * 100 + (c - 48) * 10 + (d - 48)

/-- Embeds `datetime.strptime(s, "%Y-%m-%d").date()` wrapped in the source's
`try/except`: `some` on the zero-padded `YYYY-MM-DD` strings that
`str(date)` emits, `none` (the `except` branch) otherwise. -/
def strptimeDate (s : List ℕ) : Option PyDate :=
  match s with
  | [y1, y2, y3, y4, h1, m1, m2, h2, d1, d2] =>
      if h1 = 45 ∧ h2 = 45 ∧
          48 ≤ y1 ∧ y1 ≤ 57 ∧ 48 ≤ y2 ∧ y2 ≤ 57 ∧ 48 ≤ y3 ∧ y3 ≤ 57 ∧ 48 ≤ y4 ∧ y4 ≤ 57 ∧
          48 ≤ m1 ∧ m1 ≤ 57 ∧ 48 ≤ m2 ∧ m2 ≤ 57 ∧ 48 ≤ d1 ∧ d1 ≤ 57 ∧ 48 ≤ d2 ∧ d2 ≤ 57 then
        some ⟨val4 y1 y2 y3 y4, val2 m1 m2, val2 d1 d2⟩
      else none
  | _ => none

/-- Embeds `datetime.strptime(s, "%H:%M:%S").time()` wrapped in the source's
`try/except`: `some` on the `HH:MM:SS` strings that `str(time)` emits,
`none` (the `except` branch) otherwise. -/
def strptimeTime (s : List ℕ) : Option PyTime :=
  match s with
  | [a1, a2, c1, b1, b2, c2, s1, s2] =>
      if c1 = 58 ∧ c2 = 58 ∧
          48 ≤ a1 ∧ a1 ≤ 57 ∧ 48 ≤ a2 ∧ a2 ≤ 57 ∧
          48 ≤ b1 ∧ b1 ≤ 57 ∧ 48 ≤ b2 ∧ b2 ≤ 57 ∧
          48 ≤ s1 ∧ s1 ≤ 57 ∧ 48 ≤ s2 ∧ s2 ≤ 57 then
        some ⟨val2 a1 a2, val2 b1 b2, val2 s1 s2⟩
      else none
  | _ => none

/-- The code points of the Python string `"None"`, which `load_data`
explicitly skips. -/
def noneStr : List ℕ := [78, 111, 110, 101]

/-- The JSON-dict shape produced by `EventBid.to_dict` and consumed by
`EventBid.load_data`: one `Option`-typed field per dict key, `none`
meaning the key is absent or holds `null` (both make `data.get(key)`
return `None`). -/
structure BidData where
  kingdom_event_name : Option String
  start_date : Option (List ℕ)
  gate_time : Option (List ℕ)
  is_single_day : Option Bool
  event_stewards : Option (List String)
  feast_stewards : Option (List String)
  site_flat_fee : Option ℚ
  site_variable_cost : Option ℚ
  camping_allowed : Option Bool
  fires_allowed : Option Bool
  alcohol_policy : Option String
  classrooms_small : Option ℚ
  classrooms_med : Option ℚ
  classrooms_large : Option ℚ
  av_equipment : Option String
  ada_ramps : Option Bool
  ada_parking : Option Bool
  ada_parking_count : Option ℚ
  ada_bathrooms : Option Bool
  ada_bathroom_count : Option ℚ
  kitchen_size : Option String
  kitchen_sq_ft : Option ℚ
  kitchen_burners : Option ℚ
  kitchen_ovens : Option ℚ
  kitchen_3bay_sinks : Option ℚ
  kitchen_prep_tables : Option ℚ
  kitchen_garbage_cans : Option ℚ
  kitchen_fridge_household : Option ℚ
  kitchen_freezer_household : Option ℚ
  kitchen_amenities : Option (List String)
  ticket_weekend_member : Option ℚ
  ticket_daytrip_member : Option ℚ
  feast_ticket_price : Option ℚ
  food_cost_per_person : Option ℚ
  feast_capacity : Option ℚ
  beds_top_qty : Option ℚ
  beds_top_price : Option ℚ
  beds_bot_qty : Option ℚ
  beds_bot_price : Option ℚ
  expenses : Option (List (String × Expense))
deriving DecidableEq

/-- Embeds `EventBid.to_dict`: every key present, dates and times rendered
with `str` (or `null` when unset).  Note the source emits no
`event_type` and no `nms_surcharge` key. -/
def to_dict (b : EventBid) : BidData where
  kingdom_event_name := some b.kingdom_event_name
  start_date := b.start_date.map strOfDate
  gate_time := b.gate_time.map strOfTime
  is_single_day := some b.is_single_day
  event_stewards := some b.event_stewards
  feast_stewards := some b.feast_stewards
  site_flat_fee := some b.site_flat_fee
  site_variable_cost := some b.site_variable_cost
  camping_allowed := some b.camping_allowed
  fires_allowed := some b.fires_allowed
  alcohol_policy := some b.alcohol_policy
  classrooms_small := some b.classrooms_small
  classrooms_med := some b.classrooms_med
  classrooms_large := some b.classrooms_large
  av_equipment := some b.av_equipment
  ada_ramps := some b.ada_ramps
  ada_parking := some b.ada_parking
  ada_parking_count := some b.ada_parking_count
  ada_bathrooms := some b.ada_bathrooms
  ada_bathroom_count := some b.ada_bathroom_count
  kitchen_size := some b.kitchen_size
  kitchen_sq_ft := some b.kitchen_sq_ft
  kitchen_burners := some b.kitchen_burners
  kitchen_ovens := some b.kitchen_ovens
  kitchen_3bay_sinks := some b.kitchen_3bay_sinks
  kitchen_prep_tables := some b.kitchen_prep_tables
  kitchen_garbage_cans := some b.kitchen_garbage_cans
  kitchen_fridge_household := some b.kitchen_fridge_household
  kitchen_freezer_household := some b.kitchen_freezer_household
  kitchen_amenities := some b.kitchen_amenities
  ticket_weekend_member := some b.ticket_weekend_member
  ticket_daytrip_member := some b.ticket_daytrip_member
  feast_ticket_price := some b.feast_ticket_price
  food_cost_per_person := some b.food_cost_per_person
  feast_capacity := some b.feast_capacity
  beds_top_qty := some b.beds_top_qty
  beds_top_price := some b.beds_top_price
  beds_bot_qty := some b.beds_bot_qty
  beds_bot_price := some b.beds_bot_price
  expenses := some b.expenses

/-- Embeds `data.get(key, 0.0)` / `data.get(key, 0)` for a numeric field. -/
def getQ (o : Option ℚ) : ℚ := o.getD 0

/-- Embeds `data.get(key, False)` for a boolean field. -/
def getB (o : Option Bool) : Bool := o.getD false

/-- The `d_str = data.get('start_date'); if d_str and d_str != 'None':
try/except` block of `load_data`: the stored string is parsed only when
present, truthy and not `"None"`; otherwise the receiver's field `old`
is left as it was. -/
def loadDateField (old : Option PyDate) (stored : Option (List ℕ)) : Option PyDate :=
  match stored with
  | none => old
  | some s => if s = [] ∨ s = noneStr then old else strptimeDate s

/-- The matching `gate_time` block of `load_data`. -/
def loadTimeField (old : Option PyTime) (stored : Option (List ℕ)) : Option PyTime :=
  match stored with
  | none => old
  | some s => if s = [] ∨ s = noneStr then old else strptimeTime s

/-- Embeds `EventBid.load_data(data)`, mutating the receiver `b` (the app
always calls it on a freshly constructed `EventBid`).  Each plain field
is `data.get(key, default)`; the date and time are only assigned when
the stored string is truthy and not `"None"`, and the `try/except`
around `strptime` is the `Option` result of the parser.  `event_type`
and `nms_surcharge` are never read. -/
def load_data (b : EventBid) (data : BidData) : EventBid where
  kingdom_event_name := data.kingdom_event_name.getD "N/A"
  start_date := loadDateField b.start_date data.start_date
  gate_time := loadTimeField b.gate_time data.gate_time
  is_single_day := getB data.is_single_day
  event_stewards := data.event_stewards.getD ["", "", "", ""]
  feast_stewards := data.feast_stewards.getD ["", "", ""]
  expenses := data.expenses.getD []
  event_type := b.event_type
  site_flat_fee := getQ data.site_flat_fee
  site_variable_cost := getQ data.site_variable_cost
  camping_allowed := getB data.camping_allowed
  fires_allowed := getB data.fires_allowed
  alcohol_policy := data.alcohol_policy.getD "Dry (no)"
  classrooms_small := getQ data.classrooms_small
  classrooms_med := getQ data.classrooms_med
  classrooms_large := getQ data.classrooms_large
  av_equipment := data.av_equipment.getD ""
  ada_ramps := getB data.ada_ramps
  ada_parking := getB data.ada_parking
  ada_parking_count := getQ data.ada_parking_count
  ada_bathrooms := getB data.ada_bathrooms
  ada_bathroom_count := getQ data.ada_bathroom_count
  kitchen_size := data.kitchen_size.getD "None"
  kitchen_sq_ft := getQ data.kitchen_sq_ft
  kitchen_burners := getQ data.kitchen_burners
  kitchen_ovens := getQ data.kitchen_ovens
  kitchen_3bay_sinks := getQ data.kitchen_3bay_sinks
  kitchen_prep_tables := getQ data.kitchen_prep_tables
  kitchen_garbage_cans := getQ data.kitchen_garbage_cans
  kitchen_fridge_household := getQ data.kitchen_fridge_household
  kitchen_freezer_household := getQ data.kitchen_freezer_household
  kitchen_amenities := data.kitchen_amenities.getD []
  ticket_weekend_member := getQ data.ticket_weekend_member
  ticket_daytrip_member := getQ data.ticket_daytrip_member
  nms_surcharge := b.nms_surcharge
  feast_ticket_price := getQ data.feast_ticket_price
  food_cost_per_person := getQ data.food_cost_per_person
  feast_capacity := getQ data.feast_capacity
  beds_top_qty := getQ data.beds_top_qty
  beds_top_price := getQ data.beds_top_price
  beds_bot_qty := getQ data.beds_bot_qty
  beds_bot_price := getQ data.beds_bot_price

/-! ## Site profiles: `apply_site_profile` -/

/-- A site profile dict (a value of `KNOWN_SITES` or the admin-export
shape): one `Option`-typed field per key that `apply_site_profile`
reads, `none` meaning the key is absent. -/
structure SiteProfile where
  site_flat_fee : Option ℚ
  site_variable_cost : Option ℚ
  camping_allowed : Option Bool
  fires_allowed : Option Bool
  alcohol_policy : Option String
  kitchen_size : Option String
  kitchen_sq_ft : Option ℚ
  kitchen_burners : Option ℚ
  kitchen_ovens : Option ℚ
  kitchen_3bay_sinks : Option ℚ
  kitchen_prep_tables : Option ℚ
  kitchen_garbage_cans : Option ℚ
  kitchen_fridge_household : Option ℚ
  kitchen_freezer_household : Option ℚ
  kitchen_amenities : Option (List String)
  classrooms_small : Option ℚ
  classrooms_med : Option ℚ
  classrooms_large : Option ℚ
  ada_ramps : Option Bool
  ada_parking : Option Bool
  ada_parking_count : Option ℚ
  ada_bathrooms : Option Bool
  ada_bathroom_count : Option ℚ
  beds_bot_qty : Option ℚ
  beds_top_qty : Option ℚ
deriving DecidableEq

/-- The profile dict with no recognised key. -/
def SiteProfile.empty : SiteProfile where
  site_flat_fee := none
  site_variable_cost := none
  camping_allowed := none
  fires_allowed := none
  alcohol_policy := none
  kitchen_size := none
  kitchen_sq_ft := none
  kitchen_burners := none
  kitchen_ovens := none
  kitchen_3bay_sinks := none
  kitchen_prep_tables := none
  kitchen_garbage_cans := none
  kitchen_fridge_household := none
  kitchen_freezer_household := none
  kitchen_amenities := none
  classrooms_small := none
  classrooms_med := none
  classrooms_large := none
  ada_ramps := none
  ada_parking := none
  ada_parking_count := none
  ada_bathrooms := none
  ada_bathroom_count := none
  beds_bot_qty := none
  beds_top_qty := none

/-- Embeds `EventBid.apply_site_profile(profile)`.  The outer `Option` models
the source's `if not profile: return` guard: `none` is a falsy profile
(`None` or the empty dict), `some p` a truthy one.  In the truthy case
every listed field is assigned `profile.get(key, default)`; all other
`EventBid` fields are untouched. -/
def apply_site_profile (b : EventBid) (profile : Option SiteProfile) : EventBid :=
  match profile with
  | none => b
  | some p =>
      { b with
        site_flat_fee := getQ p.site_flat_fee
        site_variable_cost := getQ p.site_variable_cost
        camping_allowed := getB p.camping_allowed
        fires_allowed := getB p.fires_allowed
        alcohol_policy := p.alcohol_policy.getD "Dry (no)"
        kitchen_size := p.kitchen_size.getD "None"
        kitchen_sq_ft := getQ p.kitchen_sq_ft
        kitchen_burners := getQ p.kitchen_burners
        kitchen_ovens := getQ p.kitchen_ovens
        kitchen_3bay_sinks := getQ p.kitchen_3bay_sinks
        kitchen_prep_tables := getQ p.kitchen_prep_tables
        kitchen_garbage_cans := getQ p.kitchen_garbage_cans
        kitchen_fridge_household := getQ p.kitchen_fridge_household
        kitchen_freezer_household := getQ p.kitchen_freezer_household
        kitchen_amenities := p.kitchen_amenities.getD []
        classrooms_small := getQ p.classrooms_small
        classrooms_med := getQ p.classrooms_med
        classrooms_large := getQ p.classrooms_large
        ada_ramps := getB p.ada_ramps
        ada_parking := getB p.ada_parking
        ada_parking_count := getQ p.ada_parking_count
        ada_bathrooms := getB p.ada_bathrooms
        ada_bathroom_count := getQ p.ada_bathroom_count
        beds_bot_qty := getQ p.beds_bot_qty
        beds_top_qty := getQ p.beds_top_qty }

/-! ## Sample records used to evaluate the theorems concretely -/

/-- A bid with a flat fee of 400, one projected ledger item of 600
(total fixed costs 1000), full ticket 30, variable cost 5. -/
def bC1 : EventBid :=
  { EventBid.init with
    site_flat_fee := 400
    expenses := [("Insurance", ⟨600, 0, "Admin"⟩)]
    ticket_weekend_member := 30
    site_variable_cost := 5 }

/-- A bid whose full ticket price (3) is below the per-person site
cost (8). -/
def bC2 : EventBid :=
  { EventBid.init with
    ticket_weekend_member := 3
    site_variable_cost := 8 }

/-- A bid whose single ledger item has different projected (0) and
actual (100) amounts, with a positive gate margin of 10. -/
def bC3 : EventBid :=
  { EventBid.init with
    ticket_weekend_member := 10
    expenses := [("Feast Hall Deposit", ⟨0, 100, "Site"⟩)] }

/-! ## C1 -/

/-- C1: for every bid whose gate margin (full/weekend member ticket
price minus site variable cost per person) is strictly positive,
`calculate_gate_break_even` returns the ceiling of total fixed costs
(site flat fee plus the sum of the projected ledger column) divided by
that margin. -/
theorem break_even_is_ceiling_of_fixed_over_margin (b : EventBid)
    (h : b.site_variable_cost < b.ticket_weekend_member) :
    calculate_gate_break_even b =
      some (Int.ceil (get_total_fixed_costs b Mode.projected /
        (b.ticket_weekend_member - b.site_variable_cost))) := by
  have hm : ¬ (b.ticket_weekend_member - b.site_variable_cost ≤ 0) := by
    rw [not_le]
    exact sub_pos.mpr h
  simp [calculate_gate_break_even, hm]

/-- Witness for C1: fixed costs 1000 (flat 400 + ledger 600), full
price 30, variable cost 5 give margin 25 and break-even 40. -/
theorem break_even_is_ceiling_of_fixed_over_margin_witness :
    bC1.site_variable_cost < bC1.ticket_weekend_member ∧
      calculate_gate_break_even bC1 = some 40 :=
  ⟨by norm_num [bC1, EventBid.init],
   (break_even_is_ceiling_of_fixed_over_margin bC1
      (by norm_num [bC1, EventBid.init])).trans
     (by norm_num [bC1, EventBid.init, get_total_fixed_costs, Expense.col])⟩

/-! ## C2 -/

/-- C2: for every bid whose full/weekend member ticket price is at
most the site variable cost per person (margin ≤ 0),
`calculate_gate_break_even` returns the undefined sentinel `none`
(Python `None`, rendered "Impossible" by the UI) — never a number and
never an exception. -/
theorem break_even_none_when_margin_nonpositive (b : EventBid)
    (h : b.ticket_weekend_member ≤ b.site_variable_cost) :
    calculate_gate_break_even b = none := by
  have hm : b.ticket_weekend_member - b.site_variable_cost ≤ 0 := sub_nonpos.mpr h
  simp [calculate_gate_break_even, hm]

/-- Witness for C2: ticket price 3 against variable cost 8 yields the
`none` sentinel. -/
theorem break_even_none_when_margin_nonpositive_witness :
    bC2.ticket_weekend_member ≤ bC2.site_variable_cost ∧
      calculate_gate_break_even bC2 = none :=
  ⟨by norm_num [bC2, EventBid.init],
   break_even_none_when_margin_nonpositive bC2 (by norm_num [bC2, EventBid.init])⟩

/-! ## C3 -/

/-- C3 (amended): in `generate_final_report`, the gate net and the
total expense are computed from the selected mode's fixed costs (site
flat fee plus the selected column of the ledger), and switching the
mode changes only that fixed-costs value in those formulas; but the
`break_even` entry of the report is `calculate_gate_break_even`, which
always uses the projected column regardless of the selected mode. -/
theorem report_fixed_costs_follow_mode (b : EventBid)
    (aw ad fc pct : ℚ) (m : Mode) :
    (generate_final_report b aw ad fc pct m).gate_net =
        b.ticket_weekend_member * aw + b.ticket_daytrip_member * ad -
          get_total_fixed_costs b m - b.site_variable_cost * (aw + ad) ∧
    (generate_final_report b aw ad fc pct m).total_expense =
        get_total_fixed_costs b m + b.site_variable_cost * (aw + ad) +
          b.food_cost_per_person * fc ∧
    (generate_final_report b aw ad fc pct m).break_even =
        calculate_gate_break_even b :=
  ⟨rfl, rfl, rfl⟩

/-- Counterexample for C3 as stated: with a ledger item whose
projected amount is 0 but whose actual amount is 100 and a margin of
10, the report generated in Actual mode carries break-even 0 (from the
projected column), not the ceiling of the Actual-mode fixed costs over
the margin (which would be 10). -/
theorem report_break_even_ignores_mode_counterexample :
    (generate_final_report bC3 0 0 0 0 Mode.actual).break_even ≠
      some (Int.ceil (get_total_fixed_costs bC3 Mode.actual /
        (bC3.ticket_weekend_member - bC3.site_variable_cost))) := by
  norm_num [generate_final_report, calculate_gate_break_even, get_total_fixed_costs,
    calculate_bed_revenue, bC3, EventBid.init, Expense.col]

/-! ## C4 -/

/-- C4: for every bid and all non-negative attendance, feast and
bed-sales inputs, in either mode, the report's total net equals gate
net plus feast net plus bed net exactly. -/
theorem total_net_is_sum_of_silo_nets (b : EventBid)
    (aw ad fc pct : ℚ) (m : Mode)
    (h1 : 0 ≤ aw) (h2 : 0 ≤ ad) (h3 : 0 ≤ fc) (h4 : 0 ≤ pct) :
    (generate_final_report b aw ad fc pct m).total_net =
      (generate_final_report b aw ad fc pct m).gate_net +
        (generate_final_report b aw ad fc pct m).feast_net +
        (generate_final_report b aw ad fc pct m).bed_net :=
  rfl

/-- Witness for C4 at a concrete populated bid and inputs. -/
theorem total_net_is_sum_of_silo_nets_witness :
    (0 : ℚ) ≤ 100 ∧ (0 : ℚ) ≤ 20 ∧ (0 : ℚ) ≤ 50 ∧ (0 : ℚ) ≤ 1 / 2 ∧
      (generate_final_report bC1 100 20 50 (1 / 2) Mode.projected).total_net =
        (generate_final_report bC1 100 20 50 (1 / 2) Mode.projected).gate_net +
          (generate_final_report bC1 100 20 50 (1 / 2) Mode.projected).feast_net +
          (generate_final_report bC1 100 20 50 (1 / 2) Mode.projected).bed_net :=
  ⟨by norm_num, by norm_num, by norm_num, by norm_num,
   total_net_is_sum_of_silo_nets bC1 100 20 50 (1 / 2) Mode.projected
     (by norm_num) (by norm_num) (by norm_num) (by norm_num)⟩

/-! ## C5 -/

/-- A local event bid that nets a positive total (gate revenue 100,
no costs). -/
def bC5loc : EventBid :=
  { EventBid.init with event_type := "LOCAL", ticket_weekend_member := 10 }

/-- A kingdom event bid that nets a positive total. -/
def bC5kin : EventBid :=
  { EventBid.init with ticket_weekend_member := 10 }

/-- A bid that nets a loss (flat fee 50, no revenue). -/
def bC5neg : EventBid :=
  { EventBid.init with site_flat_fee := 50 }

/-- C5: in the report, a `LOCAL` event with positive total net puts
the whole total in the group share and 0 in the kingdom share; a
`KINGDOM` event with positive total net splits it 50/50; and whenever
total net ≤ 0 both shares are 0. -/
theorem revenue_share_split (b : EventBid) (aw ad fc pct : ℚ) (m : Mode)
    (r : Report) (hr : r = generate_final_report b aw ad fc pct m) :
    (0 < r.total_net → b.event_type = "LOCAL" →
        r.kingdom_share = 0 ∧ r.group_share = r.total_net) ∧
    (0 < r.total_net → b.event_type = "KINGDOM" →
        r.kingdom_share = r.total_net * (1 / 2) ∧
          r.group_share = r.total_net * (1 / 2)) ∧
    (r.total_net ≤ 0 → r.kingdom_share = 0 ∧ r.group_share = 0) := by
  subst hr
  simp only [generate_final_report]
  split_ifs with h1 h2
  · refine ⟨fun _ hl => ?_, fun _ _ => ⟨rfl, rfl⟩, fun hle => absurd h1 (not_lt.mpr hle)⟩
    rw [hl] at h2
    exact absurd h2 (by decide)
  · exact ⟨fun _ _ => ⟨rfl, rfl⟩, fun _ hk => absurd hk h2,
      fun hle => absurd h1 (not_lt.mpr hle)⟩
  · push_neg at h1
    exact ⟨fun hp _ => absurd hp (not_lt.mpr h1), fun hp _ => absurd hp (not_lt.mpr h1),
      fun _ => ⟨rfl, rfl⟩⟩

/-- Witness for C5: a profitable local event gives shares (0, total);
a profitable kingdom event gives (total/2, total/2); a loss gives
(0, 0). -/
theorem revenue_share_split_witness :
    ((generate_final_report bC5loc 10 0 0 0 Mode.projected).kingdom_share = 0 ∧
      (generate_final_report bC5loc 10 0 0 0 Mode.projected).group_share =
        (generate_final_report bC5loc 10 0 0 0 Mode.projected).total_net) ∧
    ((generate_final_report bC5kin 10 0 0 0 Mode.projected).kingdom_share =
        (generate_final_report bC5kin 10 0 0 0 Mode.projected).total_net * (1 / 2) ∧
      (generate_final_report bC5kin 10 0 0 0 Mode.projected).group_share =
        (generate_final_report bC5kin 10 0 0 0 Mode.projected).total_net * (1 / 2)) ∧
    ((generate_final_report bC5neg 0 0 0 0 Mode.projected).kingdom_share = 0 ∧
      (generate_final_report bC5neg 0 0 0 0 Mode.projected).group_share = 0) :=
  ⟨(revenue_share_split bC5loc 10 0 0 0 Mode.projected _ rfl).1
      (by norm_num [generate_final_report, get_total_fixed_costs, calculate_bed_revenue,
        bC5loc, EventBid.init]) rfl,
   (revenue_share_split bC5kin 10 0 0 0 Mode.projected _ rfl).2.1
      (by norm_num [generate_final_report, get_total_fixed_costs, calculate_bed_revenue,
        bC5kin, EventBid.init]) rfl,
   (revenue_share_split bC5neg 0 0 0 0 Mode.projected _ rfl).2.2
      (by norm_num [generate_final_report, get_total_fixed_costs, calculate_bed_revenue,
        bC5neg, EventBid.init])⟩

/-! ## C10 -/

/-- A bid whose event type is neither "KINGDOM" nor "LOCAL". -/
def bC10 : EventBid :=
  { EventBid.init with event_type := "BARONIAL", ticket_weekend_member := 10 }

/-- C10: any event type other than "KINGDOM" is treated as local —
with positive total net the whole total goes to the group share and
the kingdom share is 0; consequently the two shares always sum to the
total net when it is positive, and are both 0 otherwise. -/
theorem non_kingdom_event_type_treated_as_local (b : EventBid)
    (aw ad fc pct : ℚ) (m : Mode)
    (r : Report) (hr : r = generate_final_report b aw ad fc pct m) :
    (b.event_type ≠ "KINGDOM" → 0 < r.total_net →
        r.kingdom_share = 0 ∧ r.group_share = r.total_net) ∧
    (0 < r.total_net → r.kingdom_share + r.group_share = r.total_net) ∧
    (r.total_net ≤ 0 → r.kingdom_share = 0 ∧ r.group_share = 0) := by
  subst hr
  simp only [generate_final_report]
  split_ifs with h1 h2
  · exact ⟨fun hne _ => absurd h2 hne, fun _ => by ring,
      fun hle => absurd h1 (not_lt.mpr hle)⟩
  · exact ⟨fun _ _ => ⟨rfl, rfl⟩, fun _ => zero_add _,
      fun hle => absurd h1 (not_lt.mpr hle)⟩
  · push_neg at h1
    exact ⟨fun _ hp => absurd hp (not_lt.mpr h1), fun hp => absurd hp (not_lt.mpr h1),
      fun _ => ⟨rfl, rfl⟩⟩

/-- Witness for C10: a profitable event typed "BARONIAL" yields
kingdom share 0 and group share equal to the total net, and the
shares sum to the total net. -/
theorem non_kingdom_event_type_treated_as_local_witness :
    ((generate_final_report bC10 10 0 0 0 Mode.projected).kingdom_share = 0 ∧
      (generate_final_report bC10 10 0 0 0 Mode.projected).group_share =
        (generate_final_report bC10 10 0 0 0 Mode.projected).total_net) ∧
    (generate_final_report bC10 10 0 0 0 Mode.projected).kingdom_share +
        (generate_final_report bC10 10 0 0 0 Mode.projected).group_share =
      (generate_final_report bC10 10 0 0 0 Mode.projected).total_net :=
  ⟨(non_kingdom_event_type_treated_as_local bC10 10 0 0 0 Mode.projected _ rfl).1
      (by decide)
      (by norm_num [generate_final_report, get_total_fixed_costs, calculate_bed_revenue,
        bC10, EventBid.init]),
   (non_kingdom_event_type_treated_as_local bC10 10 0 0 0 Mode.projected _ rfl).2.1
      (by norm_num [generate_final_report, get_total_fixed_costs, calculate_bed_revenue,
        bC10, EventBid.init])⟩

/-! ## C7 -/

/-- A bid where camping has been noted as allowed. -/
def bC7 : EventBid := { EventBid.init with camping_allowed := true }

/-- A profile carrying only a site flat fee, as a site database entry
with no `camping_allowed` key. -/
def pC7 : SiteProfile := { SiteProfile.empty with site_flat_fee := some 500 }

/-- Counterexample for C7 as stated: applying a truthy profile that
has no `camping_allowed` key resets the record's `camping_allowed`
from `True` to the default `False` instead of leaving it untouched. -/
theorem apply_site_profile_resets_absent_field_counterexample :
    (apply_site_profile bC7 (some pC7)).camping_allowed ≠ bC7.camping_allowed := by
  simp [apply_site_profile, bC7, pC7, SiteProfile.empty, EventBid.init, getB]

/-- C7 (amended): applying a truthy site profile assigns every one of
the 25 site fields — each with `profile.get(key, default)`, so fields
present in the profile get the profile's value and fields absent get
the type default — and leaves all other fields (identity, staffing,
event type, A/V, ticket pricing, surcharge, feast fields, bed prices
and the expense ledger) untouched; a falsy profile changes nothing. -/
theorem apply_site_profile_assigns_site_fields_only (b : EventBid) (p : SiteProfile) :
    ((apply_site_profile b (some p)).kingdom_event_name = b.kingdom_event_name ∧
      (apply_site_profile b (some p)).start_date = b.start_date ∧
      (apply_site_profile b (some p)).gate_time = b.gate_time ∧
      (apply_site_profile b (some p)).is_single_day = b.is_single_day ∧
      (apply_site_profile b (some p)).event_stewards = b.event_stewards ∧
      (apply_site_profile b (some p)).feast_stewards = b.feast_stewards ∧
      (apply_site_profile b (some p)).expenses = b.expenses ∧
      (apply_site_profile b (some p)).event_type = b.event_type ∧
      (apply_site_profile b (some p)).av_equipment = b.av_equipment ∧
      (apply_site_profile b (some p)).ticket_weekend_member = b.ticket_weekend_member ∧
      (apply_site_profile b (some p)).ticket_daytrip_member = b.ticket_daytrip_member ∧
      (apply_site_profile b (some p)).nms_surcharge = b.nms_surcharge ∧
      (apply_site_profile b (some p)).feast_ticket_price = b.feast_ticket_price ∧
      (apply_site_profile b (some p)).food_cost_per_person = b.food_cost_per_person ∧
      (apply_site_profile b (some p)).feast_capacity = b.feast_capacity ∧
      (apply_site_profile b (some p)).beds_top_price = b.beds_top_price ∧
      (apply_site_profile b (some p)).beds_bot_price = b.beds_bot_price) ∧
    ((apply_site_profile b (some p)).site_flat_fee = getQ p.site_flat_fee ∧
      (apply_site_profile b (some p)).site_variable_cost = getQ p.site_variable_cost ∧
      (apply_site_profile b (some p)).camping_allowed = getB p.camping_allowed ∧
      (apply_site_profile b (some p)).fires_allowed = getB p.fires_allowed ∧
      (apply_site_profile b (some p)).alcohol_policy = p.alcohol_policy.getD "Dry (no)" ∧
      (apply_site_profile b (some p)).kitchen_size = p.kitchen_size.getD "None" ∧
      (apply_site_profile b (some p)).kitchen_sq_ft = getQ p.kitchen_sq_ft ∧
      (apply_site_profile b (some p)).kitchen_burners = getQ p.kitchen_burners ∧
      (apply_site_profile b (some p)).kitchen_ovens = getQ p.kitchen_ovens ∧
      (apply_site_profile b (some p)).kitchen_3bay_sinks = getQ p.kitchen_3bay_sinks ∧
      (apply_site_profile b (some p)).kitchen_prep_tables = getQ p.kitchen_prep_tables ∧
      (apply_site_profile b (some p)).kitchen_garbage_cans = getQ p.kitchen_garbage_cans ∧
      (apply_site_profile b (some p)).kitchen_fridge_household =
        getQ p.kitchen_fridge_household ∧
      (apply_site_profile b (some p)).kitchen_freezer_household =
        getQ p.kitchen_freezer_household ∧
      (apply_site_profile b (some p)).kitchen_amenities = p.kitchen_amenities.getD [] ∧
      (apply_site_profile b (some p)).classrooms_small = getQ p.classrooms_small ∧
      (apply_site_profile b (some p)).classrooms_med = getQ p.classrooms_med ∧
      (apply_site_profile b (some p)).classrooms_large = getQ p.classrooms_large ∧
      (apply_site_profile b (some p)).ada_ramps = getB p.ada_ramps ∧
      (apply_site_profile b (some p)).ada_parking = getB p.ada_parking ∧
      (apply_site_profile b (some p)).ada_parking_count = getQ p.ada_parking_count ∧
      (apply_site_profile b (some p)).ada_bathrooms = getB p.ada_bathrooms ∧
      (apply_site_profile b (some p)).ada_bathroom_count = getQ p.ada_bathroom_count ∧
      (apply_site_profile b (some p)).beds_bot_qty = getQ p.beds_bot_qty ∧
      (apply_site_profile b (some p)).beds_top_qty = getQ p.beds_top_qty) ∧
    apply_site_profile b none = b :=
  ⟨⟨rfl, rfl, rfl, rfl, rfl, rfl, rfl, rfl, rfl, rfl, rfl, rfl, rfl, rfl, rfl, rfl, rfl⟩,
   ⟨rfl, rfl, rfl, rfl, rfl, rfl, rfl, rfl, rfl, rfl, rfl, rfl, rfl,
    rfl, rfl, rfl, rfl, rfl, rfl, rfl, rfl, rfl, rfl, rfl, rfl⟩,
   rfl⟩

/-! ## C8 -/

/-- C8: applying the same site profile twice in a row yields exactly
the state of applying it once, because every assigned field depends
only on the profile, not on the previous record state. -/
theorem apply_site_profile_idempotent (b : EventBid) (p : Option SiteProfile) :
    apply_site_profile (apply_site_profile b p) p = apply_site_profile b p := by
  cases p with
  | none => rfl
  | some q => rfl

/-! ## C9 -/

/-- A bid with feast price 20, food cost 12 and a feast hall capacity
of 50. -/
def bC9 : EventBid :=
  { EventBid.init with
    feast_ticket_price := 20
    food_cost_per_person := 12
    feast_capacity := 50
    ticket_weekend_member := 25
    site_flat_fee := 300 }

/-- C9: for every non-negative feast count — the engine never checks
it against `feast_capacity` — the report is still a defined value in
which the feast net is ticket price times count minus food cost times
count, the gate net is the same expression as with no feast attendees
(the feast silo never reaches it), and the fixed-costs term of the
total expense is the mode ledger sum, untouched by feast figures. -/
theorem feast_silo_defined_beyond_capacity (b : EventBid)
    (aw ad fc pct : ℚ) (m : Mode) (hfc : 0 ≤ fc) :
    (generate_final_report b aw ad fc pct m).feast_net =
        b.feast_ticket_price * fc - b.food_cost_per_person * fc ∧
    (generate_final_report b aw ad fc pct m).gate_net =
        (generate_final_report b aw ad 0 pct m).gate_net ∧
    (generate_final_report b aw ad fc pct m).total_expense =
        get_total_fixed_costs b m + b.site_variable_cost * (aw + ad) +
          b.food_cost_per_person * fc :=
  ⟨rfl, rfl, rfl⟩

/-- Witness for C9 at a feast count of 60, above the configured
capacity of 50. -/
theorem feast_silo_defined_beyond_capacity_witness :
    (0 : ℚ) ≤ 60 ∧ bC9.feast_capacity < 60 ∧
      (generate_final_report bC9 100 0 60 0 Mode.projected).feast_net =
          bC9.feast_ticket_price * 60 - bC9.food_cost_per_person * 60 ∧
      (generate_final_report bC9 100 0 60 0 Mode.projected).gate_net =
          (generate_final_report bC9 100 0 0 0 Mode.projected).gate_net ∧
      (generate_final_report bC9 100 0 60 0 Mode.projected).total_expense =
          get_total_fixed_costs bC9 Mode.projected +
            bC9.site_variable_cost * (100 + 0) + bC9.food_cost_per_person * 60 :=
  ⟨by norm_num, by norm_num [bC9, EventBid.init],
   feast_silo_defined_beyond_capacity bC9 100 0 60 0 Mode.projected (by norm_num)⟩

/-! ## C6: serialisation round trip -/

/-- Parsing the zero-padded rendering of a valid date recovers the
date. -/
theorem strptimeDate_strOfDate (d : PyDate) (h : validPyDate d) :
    strptimeDate (strOfDate d) = some d := by
  obtain ⟨h1, h2, h3, h4, h5, h6⟩ := h
  simp only [strOfDate, strptimeDate, digitCode, val4, val2, Nat.div_one]
  split_ifs with hc
  · simp only [Option.some.injEq]
    ext : 1 <;> (dsimp only; omega)
  · exact (hc ⟨trivial, trivial, by omega⟩).elim

/-- Parsing the zero-padded rendering of a valid time recovers the
time. -/
theorem strptimeTime_strOfTime (t : PyTime) (h : validPyTime t) :
    strptimeTime (strOfTime t) = some t := by
  obtain ⟨h1, h2, h3⟩ := h
  simp only [strOfTime, strptimeTime, digitCode, val2, Nat.div_one]
  split_ifs with hc
  · simp only [Option.some.injEq]
    ext : 1 <;> (dsimp only; omega)
  · exact (hc ⟨trivial, trivial, by omega⟩).elim

/-- A rendered date string is never empty. -/
theorem strOfDate_ne_nil (d : PyDate) : strOfDate d ≠ [] := by
  simp [strOfDate]

/-- A rendered date string is never the string `"None"`. -/
theorem strOfDate_ne_noneStr (d : PyDate) : strOfDate d ≠ noneStr := by
  simp [strOfDate, noneStr]

/-- A rendered time string is never empty. -/
theorem strOfTime_ne_nil (t : PyTime) : strOfTime t ≠ [] := by
  simp [strOfTime]

/-- A rendered time string is never the string `"None"`. -/
theorem strOfTime_ne_noneStr (t : PyTime) : strOfTime t ≠ noneStr := by
  simp [strOfTime, noneStr]

/-- The record whose round trip drops a field: a local-event bid. -/
def bC6 : EventBid := { EventBid.init with event_type := "LOCAL" }

/-- Counterexample for C6 as stated: `to_dict` emits no `event_type`
key, so loading a saved `LOCAL` bid into a fresh record leaves the
constructor default `"KINGDOM"`, and the round trip does not restore
the record. -/
theorem load_to_dict_drops_event_type_counterexample :
    (load_data EventBid.init (to_dict bC6)).event_type = "KINGDOM" ∧
      bC6.event_type = "LOCAL" ∧
      load_data EventBid.init (to_dict bC6) ≠ bC6 := by
  refine ⟨rfl, rfl, fun hcontra => ?_⟩
  have h : (load_data EventBid.init (to_dict bC6)).event_type = bC6.event_type := by
    rw [hcontra]
  simp [load_data, to_dict, bC6, EventBid.init] at h

/-- C6 (amended): loading the result of saving a populated record into
a fresh record restores every field that `to_dict` serialises — the
start date, gate time, ledger and all numeric, boolean, string and
list fields — exactly; `event_type` and `nms_surcharge` are not
serialised, so the round trip restores the whole record exactly when
those two fields hold their constructor defaults (`"KINGDOM"` and
`10`). -/
theorem load_to_dict_restores_serialised_fields (b : EventBid)
    (htype : b.event_type = "KINGDOM")
    (hnms : b.nms_surcharge = 10)
    (hd : ∀ d ∈ b.start_date, validPyDate d)
    (ht : ∀ t ∈ b.gate_time, validPyTime t) :
    load_data EventBid.init (to_dict b) = b := by
  ext : 1
  case start_date =>
    simp only [load_data, to_dict]
    cases hb : b.start_date with
    | none => simp [loadDateField, EventBid.init]
    | some d =>
        have hv : validPyDate d := hd d (by simp [hb])
        simp [loadDateField, strOfDate_ne_nil, strOfDate_ne_noneStr,
          strptimeDate_strOfDate d hv]
  case gate_time =>
    simp only [load_data, to_dict]
    cases hb : b.gate_time with
    | none => simp [loadTimeField, EventBid.init]
    | some t =>
        have hv : validPyTime t := ht t (by simp [hb])
        simp [loadTimeField, strOfTime_ne_nil, strOfTime_ne_noneStr,
          strptimeTime_strOfTime t hv]
  case event_type => simp [load_data, EventBid.init, htype]
  case nms_surcharge => simp [load_data, EventBid.init, hnms]
  all_goals simp [load_data, to_dict, getQ, getB]

/-- A fully populated bid whose non-serialised fields hold their
defaults. -/
def bC6w : EventBid :=
  { EventBid.init with
    kingdom_event_name := "Spring Coronation"
    start_date := some ⟨2026, 5, 9⟩
    gate_time := some ⟨10, 30, 0⟩
    is_single_day := true
    event_stewards := ["Aelfric", "Runa", "", ""]
    feast_stewards := ["Mara", "", ""]
    expenses := [("Tournament Token", ⟨100, 0, "Prizes"⟩), ("Decor", ⟨55, 60, "Decor"⟩)]
    site_flat_fee := 1200
    site_variable_cost := 5
    camping_allowed := true
    alcohol_policy := "Wet (yes)"
    kitchen_size := "Large"
    kitchen_amenities := ["Ice Machine"]
    ticket_weekend_member := 35
    ticket_daytrip_member := 15
    feast_ticket_price := 20
    food_cost_per_person := 15
    feast_capacity := 50
    beds_top_qty := 20
    beds_top_price := 5
    beds_bot_qty := 20
    beds_bot_price := 10 }

/-- Witness for the amended C6 at a populated concrete record with a
date, a time and a two-item ledger. -/
theorem load_to_dict_restores_serialised_fields_witness :
    bC6w.event_type = "KINGDOM" ∧ bC6w.nms_surcharge = 10 ∧
      (∀ d ∈ bC6w.start_date, validPyDate d) ∧
      (∀ t ∈ bC6w.gate_time, validPyTime t) ∧
      load_data EventBid.init (to_dict bC6w) = bC6w :=
  ⟨rfl, rfl,
   by intro d hd
      simp only [bC6w, EventBid.init] at hd
      rw [Option.mem_some_iff] at hd
      rw [← hd]
      decide,
   by intro t ht
      simp only [bC6w, EventBid.init] at ht
      rw [Option.mem_some_iff] at ht
      rw [← ht]
      decide,
   load_to_dict_restores_serialised_fields bC6w rfl rfl
     (by intro d hd
         simp only [bC6w, EventBid.init] at hd
         rw [Option.mem_some_iff] at hd
         rw [← hd]
         decide)
     (by intro t ht
         simp only [bC6w, EventBid.init] at ht
         rw [Option.mem_some_iff] at ht
         rw [← ht]
         decide)⟩

end MeridiesBid
